import Mathlib

/-!
Shallow embedding of `src/ccsds_oem.py`, a container for data in a CCSDS
Orbit Ephemeris Message (OEM) file, together with theorems settling the
specification claims about it.

Python semantics captured here:
* optional (`= None` default) parameters and nullable attributes become
  `Option String`;
* a constructor or method that can `raise` returns `Except PyError _`;
  a body that contains no `raise` always returns `Except.ok`;
* interpolating `None` into an f-string yields the text `"None"`;
* membership `x in lst` for a string `x` compares `x` against each list
  element, and the literal `Ellipsis` (`...`) element never equals a string;
* a Python method body that is just `pass` returns `None`, embedded as
  `none : Option _` when the annotation promises a value.
-/

/-- Exceptions raised by the Python module. -/
inductive PyError where
  | valueError (msg : String)
  | notImplementedError
  deriving DecidableEq, Repr

/-- State of an `Epoch` instance after `__init__` (lines 11-26): the nine
attributes it assigns. -/
structure Epoch where
  year : String
  month : String
  day : Option String
  day_of_year : Option String
  hours : String
  minutes : String
  seconds : String
  frac_seconds : String
  time_code : String
  deriving DecidableEq, Repr

/-- Embeds `Epoch.__init__` (lines 11-26). The body assigns attributes and
contains no `raise`, so it always returns `Except.ok`. Per line 19,
`self.day = None if day is None else day` is the identity on the argument;
per line 25 a missing `frac_seconds` becomes the empty string; per line 26
`self.time_code = '' if time_code is None else 'Z'`. -/
def Epoch.init (year month : String) (day : Option String)
    (hours minutes seconds : String) (frac_seconds : Option String)
    (day_of_year : Option String) (time_code : Option String) :
    Except PyError Epoch :=
  Except.ok
    { year := year
      month := month
      day := day
      day_of_year := day_of_year
      hours := hours
      minutes := minutes
      seconds := seconds
      frac_seconds := frac_seconds.getD ""
      time_code := match time_code with
        | none => ""
        | some _ => "Z" }

/-- Interpolation of a nullable string into a Python f-string: `None`
prints as the text `None`. -/
def optionStr : Option String → String
  | none => "None"
  | some s => s

/-- Embeds `Epoch.to_string` (lines 28-37). Format `A` interpolates
`year-month-day`, format `B` interpolates `year-month-day_of_year`
(line 36 keeps the month field), and any other format argument falls
through both `if` statements, returning `None`. -/
def Epoch.to_string (e : Epoch) (format : String) : Option String :=
  let frac_secs := if e.frac_seconds ≠ "" then "." ++ e.frac_seconds else ""
  if format = "A" then
    some (e.year ++ "-" ++ e.month ++ "-" ++ optionStr e.day ++ "T" ++
      e.hours ++ ":" ++ e.minutes ++ ":" ++ e.seconds ++ frac_secs ++
      e.time_code)
  else if format = "B" then
    some (e.year ++ "-" ++ e.month ++ "-" ++ optionStr e.day_of_year ++ "T" ++
      e.hours ++ ":" ++ e.minutes ++ ":" ++ e.seconds ++ frac_secs ++
      e.time_code)
  else
    none

namespace OEM

/-- `OEM.Comment` (lines 140-147): one free-text line. -/
structure Comment where
  comment : String
  deriving DecidableEq, Repr

/-- Embeds `Comment.to_string` (lines 146-147): the `COMMENT` keyword, a
space, then the body. -/
def Comment.to_string (c : Comment) : String :=
  "COMMENT " ++ c.comment

namespace Header

/-- `OEM.Header.Version` (lines 45-54). -/
structure Version where
  major : Int
  minor : Int
  deriving DecidableEq, Repr

/-- Embeds `Version.to_string` (lines 53-54): `major.minor`. -/
def Version.to_string (v : Version) : String :=
  toString v.major ++ "." ++ toString v.minor

/-- `OEM.Header.Originator` (lines 75-88): holds the agency/operator code
accepted by its constructor. -/
structure Originator where
  agency_operator : String
  deriving DecidableEq, Repr

/-- An element of the Python list literal on line 81: either a string or
the literal `Ellipsis` (`...`). -/
inductive PyListEntry where
  | str (s : String)
  | ellipsis
  deriving DecidableEq, Repr

/-- The hardcoded list on line 81: `['CNES', 'ESOC', ...]`, where `...`
is the Python `Ellipsis` object left as a placeholder. -/
def allowed_agency_operators : List PyListEntry :=
  [PyListEntry.str "CNES", PyListEntry.str "ESOC", PyListEntry.ellipsis]

/-- Python membership `s in lst` for a string `s`: equality against each
element; `Ellipsis` never equals a string. -/
def pyStrMem (s : String) : List PyListEntry → Bool
  | [] => false
  | PyListEntry.str t :: rest => s = t || pyStrMem s rest
  | PyListEntry.ellipsis :: rest => pyStrMem s rest

/-- Embeds `Originator.__init__` (lines 80-85): membership in the
hardcoded list stores the code, otherwise
`raise ValueError('Invalid agency/operator')`. -/
def Originator.init (agency_operator : String) : Except PyError Originator :=
  if pyStrMem agency_operator allowed_agency_operators then
    Except.ok { agency_operator := agency_operator }
  else
    Except.error (PyError.valueError "Invalid agency/operator")

/-- Embeds `Originator.to_string` (lines 87-88): `raise NotImplementedError`. -/
def Originator.to_string (_ : Originator) : Except PyError String :=
  Except.error PyError.notImplementedError

/-- `OEM.Header.MessageID` (lines 90-98): no stored attributes. -/
structure MessageID where
  deriving DecidableEq, Repr

/-- Embeds `MessageID.to_string` (lines 97-98): `raise NotImplementedError`. -/
def MessageID.to_string (_ : MessageID) : Except PyError String :=
  Except.error PyError.notImplementedError

end Header

/-- `OEM.Header` (lines 40-107). Its `__init__` (lines 100-104) receives a
version and a comment and its body is `pass`. -/
structure Header where
  version : Header.Version
  comment : Comment
  deriving DecidableEq, Repr

/-- Embeds `Header.to_string` (lines 106-107): `raise NotImplementedError`. -/
def Header.to_string (_ : Header) : Except PyError String :=
  Except.error PyError.notImplementedError

namespace Metadata

/-- Class attribute `Metadata.start` (line 114). -/
def start : String := "META_START"

/-- Class attribute `Metadata.stop` (line 115). -/
def stop : String := "META_STOP"

end Metadata

namespace CovarianceData

/-- Class attribute `CovarianceData.start` (line 134): the keyword wrapped
in newline characters. -/
def start : String := "\nCOVARIANCE_START\n"

/-- Class attribute `CovarianceData.stop` (line 135): the keyword wrapped
in newline characters. -/
def stop : String := "\nCOVARIANCE_STOP\n"

end CovarianceData

end OEM

/-- An `OEM` instance (lines 149-158): its `__init__` body is `pass`, so it
holds no attributes. -/
structure OEM where
  deriving DecidableEq, Repr

/-- Embeds `OEM.valid` (lines 152-158). The docstring promises a `bool`,
but the body is `pass`, which returns `None`. -/
def OEM.valid (_ : OEM) : Option Bool :=
  none


/-! ## Theorems settling the claims -/

/-- Claim C2, code evaluation at the failing inputs: `Epoch.__init__`
performs no validation, so construction succeeds with both day forms
populated and also with neither populated, contrary to the claimed
exactly-one invariant and to the `InvalidEpoch` failure. -/
theorem epoch_init_accepts_both_and_neither_day_forms :
    Epoch.init "2024" "05" (some "01") "00" "15" "23" none (some "121") none =
      Except.ok { year := "2024", month := "05", day := some "01",
                  day_of_year := some "121", hours := "00", minutes := "15",
                  seconds := "23", frac_seconds := "", time_code := "" } ∧
    Epoch.init "2024" "05" none "00" "15" "23" none none none =
      Except.ok { year := "2024", month := "05", day := none,
                  day_of_year := none, hours := "00", minutes := "15",
                  seconds := "23", frac_seconds := "", time_code := "" } :=
  ⟨rfl, rfl⟩

/-- Claim C3, code evaluation at the failing input: rendering an Epoch
whose day-of-year is populated in format B interpolates the month between
the year and the day-of-year, so the output is not of the claimed
`YYYY-DDDThh:mm:ss` shape. -/
theorem epoch_to_string_format_b_emits_month :
    Epoch.to_string { year := "2024", month := "05", day := some "01",
                      day_of_year := some "121", hours := "00",
                      minutes := "15", seconds := "23", frac_seconds := "",
                      time_code := "" } "B" =
      some "2024-05-121T00:15:23" :=
  rfl

/-- Claim C4, code evaluation at the failing input (the call on line 161
of the source): a one-digit hours argument is rendered as-is, with no
zero padding, so the hours field of the output is not two digits. -/
theorem epoch_to_string_no_zero_padding :
    Epoch.to_string { year := "2024", month := "05", day := some "01",
                      day_of_year := none, hours := "0", minutes := "15",
                      seconds := "23", frac_seconds := "",
                      time_code := "" } "A" =
      some "2024-05-01T0:15:23" :=
  rfl

/-- Claim C5, counterexample: constructing an Epoch with timezone suffix
`X` does not fail with `InvalidEpoch`; it succeeds, silently storing `Z`. -/
theorem epoch_init_time_code_x_succeeds :
    Epoch.init "2024" "05" (some "01") "00" "15" "23" none none (some "X") =
      Except.ok { year := "2024", month := "05", day := some "01",
                  day_of_year := none, hours := "00", minutes := "15",
                  seconds := "23", frac_seconds := "", time_code := "Z" } :=
  rfl

/-- Claim C5, amended: Epoch construction never fails; any supplied
timezone suffix is stored as `Z` and an absent one as the empty string,
so the only timezone marker that can appear in a constructed Epoch is
`Z`. -/
theorem epoch_time_code_always_empty_or_z (year month : String)
    (day : Option String) (hours minutes seconds : String)
    (fs doy tc : Option String) :
    ∃ e, Epoch.init year month day hours minutes seconds fs doy tc =
        Except.ok e ∧ (e.time_code = "" ∨ e.time_code = "Z") := by
  refine ⟨_, rfl, ?_⟩
  cases tc with
  | none => exact Or.inl rfl
  | some s => exact Or.inr rfl

/-- Claim C6, counterexample: constructing an Originator with the code
`NASA`, which is not in the table, raises `ValueError`, not the claimed
`UnknownVocabularyEntry`; and `Originator.init` takes no table argument,
the table being the hardcoded list `allowed_agency_operators`. -/
theorem originator_init_nasa_value_error :
    OEM.Header.Originator.init "NASA" =
      Except.error (PyError.valueError "Invalid agency/operator") :=
  rfl

/-- Claim C6, amended: construction succeeds and stores the code exactly
when the code is a string member of the hardcoded list on line 81 of the
source, i.e. exactly when it is `CNES` or `ESOC` (the `Ellipsis`
placeholder matches no string); any other code raises a `ValueError`
carrying the message `Invalid agency/operator`. -/
theorem originator_init_membership (s : String) :
    ((∃ o, OEM.Header.Originator.init s = Except.ok o ∧
        o.agency_operator = s) ↔ (s = "CNES" ∨ s = "ESOC")) ∧
    (s ≠ "CNES" → s ≠ "ESOC" →
      OEM.Header.Originator.init s =
        Except.error (PyError.valueError "Invalid agency/operator")) := by
  have hmem : OEM.Header.pyStrMem s OEM.Header.allowed_agency_operators =
      (decide (s = "CNES") || decide (s = "ESOC")) := by
    simp [OEM.Header.pyStrMem, OEM.Header.allowed_agency_operators]
  constructor
  · constructor
    · rintro ⟨o, ho, _⟩
      by_contra hne
      push_neg at hne
      rw [OEM.Header.Originator.init, hmem] at ho
      simp [hne.1, hne.2] at ho
    · intro h
      refine ⟨{ agency_operator := s }, ?_, rfl⟩
      rw [OEM.Header.Originator.init, hmem]
      rcases h with h | h <;> simp [h]
  · intro h1 h2
    rw [OEM.Header.Originator.init, hmem]
    simp [h1, h2]

/-- Claim C6, witness for the amended theorem at the concrete code
`NASA`. -/
theorem originator_init_membership_witness :
    ((∃ o, OEM.Header.Originator.init "NASA" = Except.ok o ∧
        o.agency_operator = "NASA") ↔
      (("NASA" : String) = "CNES" ∨ ("NASA" : String) = "ESOC")) ∧
    OEM.Header.Originator.init "NASA" =
      Except.error (PyError.valueError "Invalid agency/operator") :=
  ⟨(originator_init_membership "NASA").1,
   (originator_init_membership "NASA").2 (by decide) (by decide)⟩

/-- Claim C7, code evaluation: the rendering methods of `Originator`,
`MessageID` and `Header` all raise `NotImplementedError` on every value,
including a validly constructed Originator, contrary to the claim that no
public operation is partial. -/
theorem header_to_string_methods_unimplemented :
    OEM.Header.Originator.init "CNES" =
      Except.ok { agency_operator := "CNES" } ∧
    OEM.Header.Originator.to_string { agency_operator := "CNES" } =
      Except.error PyError.notImplementedError ∧
    OEM.Header.MessageID.to_string {} =
      Except.error PyError.notImplementedError ∧
    OEM.Header.to_string { version := { major := 3, minor := 0 },
                           comment := { comment := "" } } =
      Except.error PyError.notImplementedError :=
  ⟨rfl, rfl, rfl, rfl⟩

/-- Claim C8, counterexample: the `CovarianceData.start` class attribute
is not the bare keyword `COVARIANCE_START`; it embeds newline
characters. -/
theorem covariance_start_not_bare_keyword :
    OEM.CovarianceData.start ≠ "COVARIANCE_START" := by
  decide

/-- Claim C8, amended: the Metadata section keywords are exactly the bare
literals `META_START` and `META_STOP`, and the comment rendering is
exactly the `COMMENT` keyword plus a space followed by the body; the
CovarianceData keywords, however, are stored wrapped in newline
characters. -/
theorem section_keyword_values :
    OEM.Metadata.start = "META_START" ∧
    OEM.Metadata.stop = "META_STOP" ∧
    OEM.CovarianceData.start = "\n" ++ "COVARIANCE_START" ++ "\n" ∧
    OEM.CovarianceData.stop = "\n" ++ "COVARIANCE_STOP" ++ "\n" ∧
    ∀ c : OEM.Comment, (OEM.Comment.to_string c).data =
      ("COMMENT ").data ++ c.comment.data := by
  refine ⟨rfl, rfl, by decide, by decide, fun c => ?_⟩
  simp [OEM.Comment.to_string]

/-- Claim C9, code evaluation: `OEM.valid` returns `None` on every OEM
object, so no document is ever rejected with a `ValidationViolation` and
the docstring promise of a boolean result is broken. -/
theorem oem_valid_returns_none (o : OEM) : OEM.valid o = none :=
  rfl

/-- Claim C10: for every Epoch and every format argument other than `A`
or `B`, `Epoch.to_string` falls through both branches and returns `None`,
raising no error. -/
theorem epoch_to_string_unknown_format_none (e : Epoch) (fmt : String)
    (hA : fmt ≠ "A") (hB : fmt ≠ "B") :
    Epoch.to_string e fmt = none := by
  simp [Epoch.to_string, hA, hB]

/-- Claim C10, witness at the concrete format `C`. -/
theorem epoch_to_string_unknown_format_none_witness :
    ("C" : String) ≠ "A" ∧ ("C" : String) ≠ "B" ∧
    Epoch.to_string { year := "2024", month := "05", day := some "01",
                      day_of_year := none, hours := "00", minutes := "15",
                      seconds := "23", frac_seconds := "",
                      time_code := "" } "C" = none :=
  ⟨by decide, by decide,
   epoch_to_string_unknown_format_none _ "C" (by decide) (by decide)⟩
